import Mathlib

/-
Verification development for the response-cache subsystem of the
uk-pv-national-gsp-api repository.

Two cache implementations are embedded:
  * `SrcCache`  — src/src/cache.py: `remove_old_cache` and the
    `cache_response` decorator's `wrapper` (module-level dicts
    `response`, `last_updated`, `currently_running`).
  * `ApiCache`  — src/nowcasting_api/cache.py: `generate_cache_key`
    and `clear_cache_key` over the fastapi-cache in-memory backend.

Python dicts are modelled as insertion-ordered association lists with
override-on-set; Python `None` stored as a value is `Option.none` in a
doubly-optional lookup; times are integers (seconds); the producer
("the wrapped route function") is an explicit argument returning
`Except E (Option V)` (`.error` = the function raised, `.ok none` =
it returned None).

The sequential semantics freezes shared state during `time.sleep`
calls (a single caller, no interference); the `Flight` namespace at
the end gives a small interleaving semantics for the concurrency
claim, where each Python statement of the winning path is one atomic
step.
-/

namespace CacheModel

/-- Python dict lookup `d[k]` / `d.get(k)` on an association list. -/
def dget {A : Type} : List (String × A) → String → Option A
  | [], _ => none
  | (k1, v) :: rest, k => if k1 = k then some v else dget rest k

/-- Removal of a key, used to give `dset` dict (last-write-wins) semantics. -/
def derase {A : Type} : List (String × A) → String → List (String × A)
  | [], _ => []
  | (k1, v) :: rest, k => if k1 = k then derase rest k else (k1, v) :: derase rest k

/-- Python dict assignment `d[k] = v`. -/
def dset {A : Type} (d : List (String × A)) (k : String) (v : A) : List (String × A) :=
  (k, v) :: derase d k

end CacheModel

namespace SrcCache

open CacheModel

/-- The in-place pops of `"session"`, `"user"` and `"request"` from the copy of
`kwargs` (src/src/cache.py lines 84-95), leaving the remaining route variables
in their original order. -/
def dropRouteVars (kwargs : List (String × String)) : List (String × String) :=
  kwargs.filter (fun p => p.1 != "session" && p.1 != "user" && p.1 != "request")

/-- Serialization of the remaining route variables by `json.dumps` (line 100):
the dict is rendered in insertion order, with no key sorting. -/
def jsonDumps (l : List (String × String)) : String :=
  "\x7b" ++ String.intercalate ", "
    (l.map (fun p => "\"" ++ p.1 ++ "\": \"" ++ p.2 ++ "\"")) ++ "\x7d"

/-- The cache key of src/src/cache.py: `route_variables` after dropping the
non-identifying fields, dumped to a JSON string (lines 84-100). Positional
`args` are not consulted. -/
def srcCacheKey (kwargs : List (String × String)) : String :=
  jsonDumps (dropRouteVars kwargs)

/-- The three module-level dicts captured by the `cache_response` closure
(src/src/cache.py lines 72-74). `response` values are `Option V`
(`none` = the route returned Python `None`). -/
structure SrcState (V : Type) where
  response : List (String × Option V)
  last_updated : List (String × Int)
  currently_running : List (String × Bool)

/-- Embedding of `remove_old_cache` (src/src/cache.py lines 23-55): entries
whose `last_updated` time is strictly older than `remove_cache_time_seconds`
are dropped from both dicts; a key is dropped from `response` exactly when it
was selected from `last_updated`. -/
def remove_old_cache {V : Type} (last_updated : List (String × Int))
    (response : List (String × Option V)) (now delTtl : Int) :
    List (String × Int) × List (String × Option V) :=
  let keysToRemove := (last_updated.filter (fun p => decide (now - delTtl > p.2))).map Prod.fst
  (last_updated.filter (fun p => !decide (now - delTtl > p.2)),
   response.filter (fun p => !keysToRemove.contains p.1))

/-- The state visible to the wrapper after line 97, where
`last_updated, response = remove_old_cache(last_updated, response)`. -/
def afterSweep {V : Type} (st : SrcState V) (now delTtl : Int) : SrcState V :=
  { response := (remove_old_cache st.last_updated st.response now delTtl).2,
    last_updated := (remove_old_cache st.last_updated st.response now delTtl).1,
    currently_running := st.currently_running }

/-- A producer raising maps to `.error (.producer e)`; `keyError` is the
`KeyError` raised by the bare subscript `last_updated[route_variables]` on
line 147 when the key is absent. -/
inductive WrapErr (E : Type) where
  | producer (e : E)
  | keyError
deriving DecidableEq

/-- Observable outcome of one `wrapper` call: the returned value or raised
error, the state of the three dicts afterwards, how many times the wrapped
function was invoked during the call, and how many `time.sleep(1)` polls ran. -/
structure Outcome (V E : Type) where
  result : Except (WrapErr E) (Option V)
  state : SrcState V
  funcCalls : Nat
  sleeps : Nat

/-- The run-the-route block shared by branches 1.1, 1.2 and 1.3
(src/src/cache.py lines 138-143, 155-160, 181-186):
`currently_running[k] = True; response[k] = func(...);
currently_running[k] = False; last_updated[k] = t; return response[k]`.
If `func` raises, only the first assignment has happened and the error
propagates (there is no `try`/`finally` in the source). -/
def runRoute {V E : Type} (st : SrcState V) (key : String) (fr : Except E (Option V))
    (t : Int) (s : Nat) : Outcome V E :=
  let st1 : SrcState V := { st with currently_running := dset st.currently_running key true }
  match fr with
  | .error e => ⟨.error (.producer e), st1, 1, s⟩
  | .ok v =>
      ⟨.ok v,
       { response := dset st1.response key v,
         last_updated := dset st1.last_updated key t,
         currently_running := dset st1.currently_running key false }, 1, s⟩

/-- Embedding of the `wrapper` closure of `cache_response`
(src/src/cache.py lines 77-190), under a sequential semantics in which the
shared dicts do not change during `time.sleep` polls, so a poll loop entered
with the condition unsatisfiable runs its full `N_ATTEMPTS` iterations:

* branch 1.0 (lines 114-129): if `currently_running.get(key, False)`, the
  waiter polls `nA` times; sequentially the flag never changes, so the loop
  exhausts and control falls through;
* branch 1.1 (lines 132-143): first run and not running — run the route;
* branch 1.2 (lines 146-160): `last_updated[key]` is subscripted (KeyError
  when absent); if expired and not running — run the route;
* branches 1.3/1.4 (lines 163-190): a missing or `None` response polls `nA`
  times and then reruns the route; otherwise the cached value is returned. -/
def wrapper {V E A : Type} (ttl delTtl : Int) (nA : Nat) (st : SrcState V)
    (kwargs : List (String × String)) (args : A)
    (func : A → List (String × String) → Except E (Option V)) (now : Int) : Outcome V E :=
  let key := srcCacheKey kwargs
  let st0 := afterSweep st now delTtl
  let running := (dget st0.currently_running key).getD false
  let s0 : Nat := if running = true then nA else 0
  if dget st0.last_updated key = none ∧ running = false then
    runRoute st0 key (func args kwargs) now s0
  else
    match dget st0.last_updated key with
    | none => ⟨.error .keyError, st0, 0, s0⟩
    | some luT =>
      if now - ttl > luT ∧ running = false then
        runRoute st0 key (func args kwargs) now s0
      else
        match dget st0.response key with
        | some (some v) => ⟨.ok (some v), st0, 0, s0⟩
        | some none => runRoute st0 key (func args kwargs) now (s0 + nA)
        | none => runRoute st0 key (func args kwargs) now (s0 + nA)

/-- How a producer result surfaces through the wrapper when the wrapper
actually runs the route. -/
def liftFunc {V E : Type} : Except E (Option V) → Except (WrapErr E) (Option V)
  | .ok v => .ok v
  | .error e => .error (.producer e)

end SrcCache

namespace ApiCache

open CacheModel

/-- Code-point-lexicographic strict comparison of character lists, the order
Python uses on strings. -/
def strLt : List Char → List Char → Bool
  | [], [] => false
  | [], _ :: _ => true
  | _ :: _, [] => false
  | a :: as, b :: bs =>
    if a.toNat < b.toNat then true
    else if b.toNat < a.toNat then false
    else strLt as bs

/-- Non-strict lexicographic order on `(name, value)` tuples, the order
Python's `sorted` uses on a list of string pairs: compare names first, then
values. -/
def pairLeB (p q : String × String) : Bool :=
  if strLt p.1.data q.1.data then true
  else if strLt q.1.data p.1.data then false
  else !(strLt q.2.data p.2.data)

/-- The sorting relation as a proposition. -/
def pairLe (p q : String × String) : Prop := pairLeB p q = true

instance : DecidableRel pairLe := fun p q => Bool.decEq (pairLeB p q) true

/-- Python's `sorted(request.query_params.items())`
(src/nowcasting_api/cache.py line 76). -/
def sortParams (l : List (String × String)) : List (String × String) :=
  l.insertionSort pairLe

/-- Python `repr` of a string, as rendered inside an f-string of a list. -/
def pyStr (s : String) : String := "\x27" ++ s ++ "\x27"

/-- Python `repr` of one `(name, value)` tuple. -/
def pyPair (p : String × String) : String := "(" ++ pyStr p.1 ++ ", " ++ pyStr p.2 ++ ")"

/-- Python `repr` of the sorted list of query-parameter tuples, as interpolated
by `f"api:{path}:{query_params}"`. -/
def pyListRepr (l : List (String × String)) : String :=
  "[" ++ String.intercalate ", " (l.map pyPair) ++ "]"

/-- The base cache key `f"api:{path}:{query_params}"` of `generate_cache_key`
(src/nowcasting_api/cache.py lines 74-77). -/
def apiBaseKey (path : String) (qp : List (String × String)) : String :=
  "api:" ++ path ++ ":" ++ pyListRepr (sortParams qp)

/-- In-memory backend contents: `(key, value, expireAt)` entries, newest
first (`set` overrides). -/
abbrev Backend : Type := List (String × String × Int)

/-- Backend `get`: a stored value is returned only while unexpired. -/
def bGet : Backend → String → Int → Option String
  | [], _, _ => none
  | (k1, v, exp) :: rest, k, now =>
      if k1 = k then (if now < exp then some v else none) else bGet rest k now

/-- Backend `set` with relative expiry (`expire` seconds from `now`). -/
def bSet (b : Backend) (k v : String) (expire now : Int) : Backend :=
  (k, v, now + expire) :: b.filter (fun p => !(p.1 == k))

/-- Backend `clear` of one key. -/
def bClear (b : Backend) (k : String) : Backend :=
  b.filter (fun p => !(p.1 == k))

/-- Embedding of `clear_cache_key` (src/nowcasting_api/cache.py lines 138-162)
on a non-raising backend: clear the key, then, when `expiration > 0`, install
the `f"{key}:lock"` entry holding `"_LOCKED_"` for `expiration` seconds. -/
def clear_cache_key (b : Backend) (key : String) (expiration now : Int) : Backend :=
  let b1 := bClear b key
  if 0 < expiration then bSet b1 (key ++ ":lock") "_LOCKED_" expiration now else b1

/-- Embedding of `generate_cache_key` (src/nowcasting_api/cache.py lines
66-90) on a non-raising backend: build the base key from the path and the
sorted query parameters; if the `f"{key}:lock"` entry is live (truthy), return
the one-off `f"{key}:nocache:{time.time()}"` sentinel instead. -/
def generate_cache_key (path : String) (qp : List (String × String)) (b : Backend)
    (now : Int) : String :=
  let key := apiBaseKey path qp
  match bGet b (key ++ ":lock") now with
  | some v => if v ≠ "" then key ++ ":nocache:" ++ toString now else key
  | none => key

/-- Modelled from the spec: the CachedOperation wrapper around one producer
(the external fastapi-cache `cache` decorator configured with
`key_builder=generate_cache_key` and `expire=ttl`, src/nowcasting_api/cache.py
lines 165-189, the decorator itself not being repository code): compute the
key, return a live cached value on hit, otherwise invoke the producer and
store its result under the key with the configured ttl (spec section 4.3
steps 1-2, executor branch). -/
def cachedCall (b : Backend) (path : String) (qp : List (String × String))
    (producer : String) (ttl now : Int) : String × Bool × Backend :=
  let key := generate_cache_key path qp b now
  match bGet b key now with
  | some v => (v, false, b)
  | none => (producer, true, bSet b key producer ttl now)

/-- An error raised by the cache backend (spec section 7, CacheBackendError). -/
inductive BackendError where
  | failure (msg : String)
deriving DecidableEq

/-- Embedding of `generate_cache_key` over a backend whose lock lookup may
raise, passed as the result of `backend.get(f"{key}:lock")`: the source has
no `try`/`except` around that call (src/nowcasting_api/cache.py lines 80-90),
so a raising backend makes the whole key builder raise. -/
def generate_cache_key_f (path : String) (qp : List (String × String))
    (lockGet : Except BackendError (Option String)) (now : Int) :
    Except BackendError String :=
  let key := apiBaseKey path qp
  match lockGet with
  | .error e => .error e
  | .ok (some v) => .ok (if v ≠ "" then key ++ ":nocache:" ++ toString now else key)
  | .ok none => .ok key

/-- Embedding of the `try`/`except Exception` wrapping the whole body of
`clear_cache_key` (src/nowcasting_api/cache.py lines 153-162): `bodyResult`
is the backend state the body computed, or the error it raised; a raised
error is caught and logged and the previous backend state survives, the
function returning normally either way. -/
def clear_cache_key_try (bodyResult : Except BackendError Backend) (b0 : Backend) : Backend :=
  match bodyResult with
  | .ok b1 => b1
  | .error _ => b0

/-- Modelled from the spec: the wrapped cached call when the key builder runs
over a backend whose lock lookup may raise (spec section 7 demands backend
errors be caught and treated as a miss; the embedded `generate_cache_key_f`
is the repository code that decides whether that happens). -/
def cachedCallF (path : String) (qp : List (String × String))
    (lockGet : Except BackendError (Option String)) (b : Backend)
    (producer : String) (ttl now : Int) : Except BackendError (String × Bool × Backend) :=
  match generate_cache_key_f path qp lockGet now with
  | .error e => .error e
  | .ok key =>
      .ok (match bGet b key now with
           | some v => (v, false, b)
           | none => (producer, true, bSet b key producer ttl now))

end ApiCache

namespace Flight

/-- Shared state for one cache key in the interleaving model of
src/src/cache.py: the `response` entry, the `last_updated` entry, the
`currently_running` flag, and a count of producer invocations. -/
structure Sh where
  resp : Option Nat
  lu : Option Int
  flag : Bool
  calls : Nat
deriving DecidableEq

/-- Program counter of one caller thread executing the wrapper's first-run
path for the key, one atomic step per Python statement:
`l114` = the branch-1.0 check `currently_running.get(key, False)`;
`l132` = the branch-1.1 guard;
`l138` = `currently_running[key] = True`;
`l139` = evaluation of `func(*args, **kwargs)`;
`l139w` = the assignment `response[key] = ...`;
`l140` = `currently_running[key] = False`;
`l141` = `last_updated[key] = datetime.now(...)`;
`waiting` = the thread entered the branch-1.0 poll loop;
`cached` = the thread left the first-run path (guard failed);
`done` = the thread returned. -/
inductive PC where
  | l114
  | l132
  | l138
  | l139
  | l139w
  | l140
  | l141
  | waiting
  | cached
  | done
deriving DecidableEq

/-- One atomic step of one thread. FastAPI executes this sync wrapper on a
threadpool, so distinct callers interleave at statement granularity; nothing
in the source makes the lines 132-138 guard-then-set atomic. -/
def step (s : Sh) (pc : PC) (now : Int) (v : Nat) : Sh × PC :=
  match pc with
  | .l114 => (s, if s.flag then .waiting else .l132)
  | .l132 => (s, if s.lu = none ∧ s.flag = false then .l138 else .cached)
  | .l138 => ({ s with flag := true }, .l139)
  | .l139 => ({ s with calls := s.calls + 1 }, .l139w)
  | .l139w => ({ s with resp := some v }, .l140)
  | .l140 => ({ s with flag := false }, .l141)
  | .l141 => ({ s with lu := some now }, .done)
  | p => (s, p)

/-- Run a schedule over two threads: `false` steps thread 0, `true` steps
thread 1. -/
def run : List Bool → Sh → PC → PC → Int → Nat → Sh × PC × PC
  | [], s, p0, p1, _, _ => (s, p0, p1)
  | false :: rest, s, p0, p1, now, v =>
      let r := step s p0 now v
      run rest r.1 r.2 p1 now v
  | true :: rest, s, p0, p1, now, v =>
      let r := step s p1 now v
      run rest r.1 p0 r.2 now v

/-- The interleaving that breaks single-flight: both threads evaluate the
line-114 check and the line-132 guard before either reaches line 138. -/
def raceSchedule : List Bool :=
  [false, false, true, true, false, false, false, false, false,
   true, true, true, true, true]

end Flight

/-
Supporting lemmas about the embedded operations.
-/

namespace CacheModel

theorem dget_derase_ne {A : Type} (d : List (String × A)) (k k' : String) (h : k' ≠ k) :
    dget (derase d k) k' = dget d k' := by
  induction d with
  | nil => rfl
  | cons p rest ih =>
    obtain ⟨k1, v⟩ := p
    by_cases h1 : k1 = k
    · have hne : k1 ≠ k' := fun hh => h (hh ▸ h1)
      simp only [derase, if_pos h1, dget, if_neg hne, ih]
    · simp only [derase, if_neg h1, dget, ih]

theorem dget_dset_self {A : Type} (d : List (String × A)) (k : String) (v : A) :
    dget (dset d k v) k = some v := by
  simp [dset, dget]

theorem dget_dset_ne {A : Type} (d : List (String × A)) (k k' : String) (v : A) (h : k' ≠ k) :
    dget (dset d k v) k' = dget d k' := by
  simp only [dset, dget, if_neg (fun hh : k = k' => h hh.symm)]
  exact dget_derase_ne d k k' h

theorem dget_eq_none_of_not_mem {A : Type} (d : List (String × A)) (k : String)
    (h : k ∉ d.map Prod.fst) : dget d k = none := by
  induction d with
  | nil => rfl
  | cons p rest ih =>
    simp only [List.map_cons, List.mem_cons, not_or] at h
    simp only [dget, ih h.2]
    exact if_neg (fun hh : p.1 = k => h.1 hh.symm)

end CacheModel

namespace SrcCache

open CacheModel

theorem afterSweep_currently_running {V : Type} (st : SrcState V) (now delTtl : Int) :
    (afterSweep st now delTtl).currently_running = st.currently_running := rfl

theorem runRoute_funcCalls {V E : Type} (st : SrcState V) (key : String)
    (fr : Except E (Option V)) (t : Int) (s : Nat) : (runRoute st key fr t s).funcCalls = 1 := by
  cases fr <;> rfl

theorem runRoute_sleeps {V E : Type} (st : SrcState V) (key : String)
    (fr : Except E (Option V)) (t : Int) (s : Nat) : (runRoute st key fr t s).sleeps = s := by
  cases fr <;> rfl

theorem runRoute_result {V E : Type} (st : SrcState V) (key : String)
    (fr : Except E (Option V)) (t : Int) (s : Nat) :
    (runRoute st key fr t s).result = liftFunc fr := by
  cases fr <;> rfl

end SrcCache

open CacheModel SrcCache in
/-- Claim C9: a producer result of None is never served from the cache: for
every key whose stored response is None (or missing) while the entry is
otherwise fresh, every subsequent call polls up to the full wait budget
(N_ATTEMPTS sleeps) and, if the stored response is still None, re-invokes the
producer instead of returning the cached None. -/
theorem cached_none_triggers_full_poll_and_rerun {V E A : Type} (ttl delTtl : Int) (nA : Nat)
    (st : SrcState V) (kwargs : List (String × String)) (args : A)
    (func : A → List (String × String) → Except E (Option V)) (now w : Int)
    (hflag : (dget st.currently_running (srcCacheKey kwargs)).getD false = false)
    (hlu : dget (afterSweep st now delTtl).last_updated (srcCacheKey kwargs) = some w)
    (hfresh : ¬(now - ttl > w))
    (hresp : dget (afterSweep st now delTtl).response (srcCacheKey kwargs) = none ∨
             dget (afterSweep st now delTtl).response (srcCacheKey kwargs) = some none) :
    (wrapper ttl delTtl nA st kwargs args func now).sleeps = nA ∧
    (wrapper ttl delTtl nA st kwargs args func now).funcCalls = 1 ∧
    (wrapper ttl delTtl nA st kwargs args func now).result = liftFunc (func args kwargs) := by
  have hflag0 : (dget (afterSweep st now delTtl).currently_running
      (srcCacheKey kwargs)).getD false = false := by
    rw [afterSweep_currently_running]
    exact hflag
  rcases hresp with hresp | hresp <;>
    simp [wrapper, hflag0, hlu, hresp, hfresh, runRoute_sleeps, runRoute_funcCalls,
      runRoute_result]

open CacheModel SrcCache in
/-- Witness for C9: a fresh entry whose stored response is None makes the next
call sleep the full 10 attempts and then rerun the producer, returning the
fresh result. -/
theorem cached_none_triggers_full_poll_and_rerun_witness :
    (wrapper 120 240 10
        (⟨[(srcCacheKey [("gsp_id", "1")], none)], [(srcCacheKey [("gsp_id", "1")], 0)], []⟩ :
          SrcState Nat)
        [("gsp_id", "1")] () (fun _ _ => (.ok (some 7) : Except Nat (Option Nat))) 5).sleeps = 10 ∧
    (wrapper 120 240 10
        (⟨[(srcCacheKey [("gsp_id", "1")], none)], [(srcCacheKey [("gsp_id", "1")], 0)], []⟩ :
          SrcState Nat)
        [("gsp_id", "1")] () (fun _ _ => (.ok (some 7) : Except Nat (Option Nat))) 5).funcCalls = 1 ∧
    (wrapper 120 240 10
        (⟨[(srcCacheKey [("gsp_id", "1")], none)], [(srcCacheKey [("gsp_id", "1")], 0)], []⟩ :
          SrcState Nat)
        [("gsp_id", "1")] () (fun _ _ => (.ok (some 7) : Except Nat (Option Nat))) 5).result =
      liftFunc (.ok (some 7)) :=
  cached_none_triggers_full_poll_and_rerun 120 240 10 _ [("gsp_id", "1")] ()
    (fun _ _ => (.ok (some 7) : Except Nat (Option Nat))) 5 0 (by rfl) (by rfl) (by decide)
    (Or.inr (by rfl))

open CacheModel SrcCache in
/-- Claim C3: for every producer that raises, the wrapped call re-raises that
same error unmodified to the caller that invoked the producer, and no cache
entry is written for the key: the response and last-updated entries for the
key are exactly what the sweep left there, so a later call can never be served
a cached error. -/
theorem producer_error_propagates_uncached {V E A : Type} (ttl delTtl : Int) (nA : Nat)
    (st : SrcState V) (kwargs : List (String × String)) (args : A)
    (func : A → List (String × String) → Except E (Option V)) (now : Int) (e : E)
    (hfunc : func args kwargs = .error e) :
    ((wrapper ttl delTtl nA st kwargs args func now).funcCalls > 0 →
      (wrapper ttl delTtl nA st kwargs args func now).result = .error (.producer e)) ∧
    dget (wrapper ttl delTtl nA st kwargs args func now).state.response (srcCacheKey kwargs) =
      dget (afterSweep st now delTtl).response (srcCacheKey kwargs) ∧
    dget (wrapper ttl delTtl nA st kwargs args func now).state.last_updated (srcCacheKey kwargs) =
      dget (afterSweep st now delTtl).last_updated (srcCacheKey kwargs) := by
  simp only [wrapper, hfunc]
  split
  · exact ⟨fun _ => rfl, rfl, rfl⟩
  · split
    · exact ⟨fun h => absurd h (Nat.lt_irrefl 0), rfl, rfl⟩
    · split
      · exact ⟨fun _ => rfl, rfl, rfl⟩
      · split
        · exact ⟨fun h => absurd h (Nat.lt_irrefl 0), rfl, rfl⟩
        · exact ⟨fun _ => rfl, rfl, rfl⟩
        · exact ⟨fun _ => rfl, rfl, rfl⟩

open CacheModel SrcCache in
/-- Witness for C3: on an empty cache a raising producer propagates its error
and writes nothing. -/
theorem producer_error_propagates_uncached_witness :
    ((wrapper 120 240 10 (⟨[], [], []⟩ : SrcState Nat) [("gsp_id", "1")] ()
        (fun _ _ => (.error 3 : Except Nat (Option Nat))) 0).funcCalls > 0 →
      (wrapper 120 240 10 (⟨[], [], []⟩ : SrcState Nat) [("gsp_id", "1")] ()
        (fun _ _ => (.error 3 : Except Nat (Option Nat))) 0).result = .error (.producer 3)) ∧
    dget (wrapper 120 240 10 (⟨[], [], []⟩ : SrcState Nat) [("gsp_id", "1")] ()
        (fun _ _ => (.error 3 : Except Nat (Option Nat))) 0).state.response
      (srcCacheKey [("gsp_id", "1")]) =
      dget (afterSweep (⟨[], [], []⟩ : SrcState Nat) 0 240).response
        (srcCacheKey [("gsp_id", "1")]) ∧
    dget (wrapper 120 240 10 (⟨[], [], []⟩ : SrcState Nat) [("gsp_id", "1")] ()
        (fun _ _ => (.error 3 : Except Nat (Option Nat))) 0).state.last_updated
      (srcCacheKey [("gsp_id", "1")]) =
      dget (afterSweep (⟨[], [], []⟩ : SrcState Nat) 0 240).last_updated
        (srcCacheKey [("gsp_id", "1")]) :=
  producer_error_propagates_uncached 120 240 10 ⟨[], [], []⟩ [("gsp_id", "1")] ()
    (fun _ _ => (.error 3 : Except Nat (Option Nat))) 0 3 (by rfl)

open CacheModel SrcCache in
/-- Counterexample to claim C2: the claim says the currently-running flag is
false after the wrapped call finishes even when the producer raised; in the
source the three statements of the run block are sequential with no
`try`/`finally`, so a raising producer leaves the flag set: on an empty cache
the call below ends with the flag still true. -/
theorem producer_error_leaves_flag_stuck :
    (dget (wrapper 120 240 10 (⟨[], [], []⟩ : SrcState Nat) [("gsp_id", "1")] ()
        (fun _ _ => (.error 3 : Except Nat (Option Nat))) 0).state.currently_running
      (srcCacheKey [("gsp_id", "1")])).getD false = true := by
  rfl

open CacheModel SrcCache in
/-- Amended claim C2: the in-flight flag for the key is guaranteed clear after
the wrapped call only when the producer returned normally (given it was clear
on entry); when the producer raises, the flag is left set (see the
counterexample), so removal is not guaranteed on every exit path. -/
theorem flag_cleared_on_normal_return {V E A : Type} (ttl delTtl : Int) (nA : Nat)
    (st : SrcState V) (kwargs : List (String × String)) (args : A)
    (func : A → List (String × String) → Except E (Option V)) (now : Int) (v : Option V)
    (hflag : (dget st.currently_running (srcCacheKey kwargs)).getD false = false)
    (hfunc : func args kwargs = .ok v) :
    (dget (wrapper ttl delTtl nA st kwargs args func now).state.currently_running
      (srcCacheKey kwargs)).getD false = false := by
  simp only [wrapper, hfunc]
  split
  · simp [runRoute, dget_dset_self]
  · split
    · exact hflag
    · split
      · simp [runRoute, dget_dset_self]
      · split
        · exact hflag
        · simp [runRoute, dget_dset_self]
        · simp [runRoute, dget_dset_self]

open CacheModel SrcCache in
/-- Witness for the amended C2: a successful first run ends with the flag
clear. -/
theorem flag_cleared_on_normal_return_witness :
    (dget (wrapper 120 240 10 (⟨[], [], []⟩ : SrcState Nat) [("gsp_id", "1")] ()
        (fun _ _ => (.ok (some 7) : Except Nat (Option Nat))) 0).state.currently_running
      (srcCacheKey [("gsp_id", "1")])).getD false = false :=
  flag_cleared_on_normal_return 120 240 10 ⟨[], [], []⟩ [("gsp_id", "1")] ()
    (fun _ _ => (.ok (some 7) : Except Nat (Option Nat))) 0 (some 7) (by rfl) (by rfl)

open CacheModel SrcCache in
/-- Counterexample to claim C4: a waiter that exhausts its poll budget while
the running flag is still set for a key that has never been written does not
fall back to executing the producer; line 147's bare subscript
`last_updated[route_variables]` raises KeyError, an internal error the claim
says is never surfaced. -/
theorem exhausted_waiter_keyerror_concrete :
    (wrapper 120 240 10
        (⟨[], [], [(srcCacheKey [("gsp_id", "1")], true)]⟩ : SrcState Nat) [("gsp_id", "1")] ()
        (fun _ _ => (.ok (some 7) : Except Nat (Option Nat))) 0).result = .error .keyError ∧
    (wrapper 120 240 10
        (⟨[], [], [(srcCacheKey [("gsp_id", "1")], true)]⟩ : SrcState Nat) [("gsp_id", "1")] ()
        (fun _ _ => (.ok (some 7) : Except Nat (Option Nat))) 0).funcCalls = 0 ∧
    (wrapper 120 240 10
        (⟨[], [], [(srcCacheKey [("gsp_id", "1")], true)]⟩ : SrcState Nat) [("gsp_id", "1")] ()
        (fun _ _ => (.ok (some 7) : Except Nat (Option Nat))) 0).sleeps = 10 := by
  exact ⟨rfl, rfl, rfl⟩

open CacheModel SrcCache in
/-- Amended claim C4: when the poll budget is exhausted with the running flag
still set and no last-updated record for the key (the state a failed executor
leaves behind), the waiter raises KeyError after its full wait budget and
never invokes the producer; the fall-back re-execution happens only when the
flag was observed clear. -/
theorem exhausted_waiter_raises_keyerror {V E A : Type} (ttl delTtl : Int) (nA : Nat)
    (st : SrcState V) (kwargs : List (String × String)) (args : A)
    (func : A → List (String × String) → Except E (Option V)) (now : Int)
    (hflag : (dget st.currently_running (srcCacheKey kwargs)).getD false = true)
    (hlu : dget (afterSweep st now delTtl).last_updated (srcCacheKey kwargs) = none) :
    (wrapper ttl delTtl nA st kwargs args func now).result = .error .keyError ∧
    (wrapper ttl delTtl nA st kwargs args func now).funcCalls = 0 ∧
    (wrapper ttl delTtl nA st kwargs args func now).sleeps = nA := by
  have hflag0 : (dget (afterSweep st now delTtl).currently_running
      (srcCacheKey kwargs)).getD false = true := by
    rw [afterSweep_currently_running]
    exact hflag
  simp [wrapper, hflag0, hlu]

open CacheModel SrcCache in
/-- Witness for the amended C4. -/
theorem exhausted_waiter_raises_keyerror_witness :
    (wrapper 120 240 10
        (⟨[], [], [(srcCacheKey [("x", "2")], true)]⟩ : SrcState Nat) [("x", "2")] ()
        (fun _ _ => (.error 9 : Except Nat (Option Nat))) 50).result = .error .keyError ∧
    (wrapper 120 240 10
        (⟨[], [], [(srcCacheKey [("x", "2")], true)]⟩ : SrcState Nat) [("x", "2")] ()
        (fun _ _ => (.error 9 : Except Nat (Option Nat))) 50).funcCalls = 0 ∧
    (wrapper 120 240 10
        (⟨[], [], [(srcCacheKey [("x", "2")], true)]⟩ : SrcState Nat) [("x", "2")] ()
        (fun _ _ => (.error 9 : Except Nat (Option Nat))) 50).sleeps = 10 :=
  exhausted_waiter_raises_keyerror 120 240 10 ⟨[], [], [(srcCacheKey [("x", "2")], true)]⟩
    [("x", "2")] () (fun _ _ => (.error 9 : Except Nat (Option Nat))) 50 (by rfl) (by rfl)

open CacheModel SrcCache in
/-- Counterexample to claim C7: the claim promises every call strictly within
ttl of the last successful write returns the cached value without invoking
the producer; when the successful write stored None (first call below), the
call one second later sleeps the full budget and invokes the producer
again. -/
theorem cached_none_reinvokes_within_ttl :
    (wrapper 120 240 10
        (wrapper 120 240 10 (⟨[], [], []⟩ : SrcState Nat) [("gsp_id", "1")] ()
          (fun _ _ => (.ok none : Except Nat (Option Nat))) 0).state
        [("gsp_id", "1")] () (fun _ _ => (.ok (some 7) : Except Nat (Option Nat))) 1).funcCalls
        = 1 ∧
    (wrapper 120 240 10
        (wrapper 120 240 10 (⟨[], [], []⟩ : SrcState Nat) [("gsp_id", "1")] ()
          (fun _ _ => (.ok none : Except Nat (Option Nat))) 0).state
        [("gsp_id", "1")] () (fun _ _ => (.ok (some 7) : Except Nat (Option Nat))) 1).sleeps
        = 10 := by
  exact ⟨rfl, rfl⟩

open CacheModel SrcCache in
/-- Amended claim C7: for a quiescent key (running flag clear), a call
strictly within ttl seconds of the last write returns the cached value
without invoking the producer provided the stored response is an actual value
(not None); once ttl has strictly elapsed (or the entry is gone), the call
re-invokes the producer, an expired entry behaving like an absent one. -/
theorem ttl_hit_and_expiry_semantics {V E A : Type} (ttl delTtl : Int) (nA : Nat)
    (st : SrcState V) (kwargs : List (String × String)) (args : A)
    (func : A → List (String × String) → Except E (Option V)) (now : Int)
    (hflag : (dget st.currently_running (srcCacheKey kwargs)).getD false = false) :
    (∀ w v, dget (afterSweep st now delTtl).last_updated (srcCacheKey kwargs) = some w →
       now < w + ttl →
       dget (afterSweep st now delTtl).response (srcCacheKey kwargs) = some (some v) →
       (wrapper ttl delTtl nA st kwargs args func now).result = .ok (some v) ∧
       (wrapper ttl delTtl nA st kwargs args func now).funcCalls = 0) ∧
    ((∀ u, dget (afterSweep st now delTtl).last_updated (srcCacheKey kwargs) = some u →
        now - ttl > u) →
       (wrapper ttl delTtl nA st kwargs args func now).funcCalls = 1 ∧
       (wrapper ttl delTtl nA st kwargs args func now).result = liftFunc (func args kwargs)) := by
  have hflag0 : (dget (afterSweep st now delTtl).currently_running
      (srcCacheKey kwargs)).getD false = false := by
    rw [afterSweep_currently_running]
    exact hflag
  constructor
  · intro w v hlu hwin hresp
    have hfresh : ¬(now - ttl > w) := by omega
    simp [wrapper, hflag0, hlu, hresp, hfresh]
  · intro hexp
    cases hlu0 : dget (afterSweep st now delTtl).last_updated (srcCacheKey kwargs) with
    | none =>
      simp [wrapper, hflag0, hlu0, runRoute_funcCalls, runRoute_result]
    | some u =>
      have hu : now - ttl > u := hexp u hlu0
      simp [wrapper, hflag0, hlu0, hu, runRoute_funcCalls, runRoute_result]

open CacheModel SrcCache in
/-- Witness for the amended C7, at a key with a fresh non-None entry (the hit
half applies with its hypotheses satisfiable, the expiry half holds
vacuously). -/
theorem ttl_hit_and_expiry_semantics_witness :
    (∀ w v, dget (afterSweep (⟨[(srcCacheKey [("a", "1")], some 5)],
         [(srcCacheKey [("a", "1")], 100)], []⟩ : SrcState Nat) 110 240).last_updated
         (srcCacheKey [("a", "1")]) = some w →
       (110 : Int) < w + 120 →
       dget (afterSweep (⟨[(srcCacheKey [("a", "1")], some 5)],
         [(srcCacheKey [("a", "1")], 100)], []⟩ : SrcState Nat) 110 240).response
         (srcCacheKey [("a", "1")]) = some (some v) →
       (wrapper 120 240 10 (⟨[(srcCacheKey [("a", "1")], some 5)],
          [(srcCacheKey [("a", "1")], 100)], []⟩ : SrcState Nat) [("a", "1")] ()
          (fun _ _ => (.ok (some 6) : Except Nat (Option Nat))) 110).result = .ok (some v) ∧
       (wrapper 120 240 10 (⟨[(srcCacheKey [("a", "1")], some 5)],
          [(srcCacheKey [("a", "1")], 100)], []⟩ : SrcState Nat) [("a", "1")] ()
          (fun _ _ => (.ok (some 6) : Except Nat (Option Nat))) 110).funcCalls = 0) ∧
    ((∀ u, dget (afterSweep (⟨[(srcCacheKey [("a", "1")], some 5)],
         [(srcCacheKey [("a", "1")], 100)], []⟩ : SrcState Nat) 110 240).last_updated
         (srcCacheKey [("a", "1")]) = some u → (110 : Int) - 120 > u) →
       (wrapper 120 240 10 (⟨[(srcCacheKey [("a", "1")], some 5)],
          [(srcCacheKey [("a", "1")], 100)], []⟩ : SrcState Nat) [("a", "1")] ()
          (fun _ _ => (.ok (some 6) : Except Nat (Option Nat))) 110).funcCalls = 1 ∧
       (wrapper 120 240 10 (⟨[(srcCacheKey [("a", "1")], some 5)],
          [(srcCacheKey [("a", "1")], 100)], []⟩ : SrcState Nat) [("a", "1")] ()
          (fun _ _ => (.ok (some 6) : Except Nat (Option Nat))) 110).result =
         liftFunc (.ok (some 6))) :=
  ttl_hit_and_expiry_semantics 120 240 10 _ [("a", "1")] ()
    (fun _ _ => (.ok (some 6) : Except Nat (Option Nat))) 110 (by rfl)

open CacheModel SrcCache in
/-- Claim C10: positional arguments do not participate in cache identity:
the key is built from the keyword arguments alone, so a second call with the
same keyword arguments but any other positional arguments, made within ttl of
a first call that cached an actual value, is served that first call's
response without the producer running again. -/
theorem positional_args_ignored_in_cache {V E A : Type} (ttl delTtl : Int) (nA : Nat)
    (kwargs : List (String × String)) (args1 args2 : A)
    (func : A → List (String × String) → Except E (Option V)) (now now2 : Int) (v : V)
    (hfunc : func args1 kwargs = .ok (some v))
    (h1 : now ≤ now2) (h2 : now2 < now + ttl) (h3 : ttl ≤ delTtl) :
    (wrapper ttl delTtl nA
        (wrapper ttl delTtl nA (⟨[], [], []⟩ : SrcState V) kwargs args1 func now).state
        kwargs args2 func now2).funcCalls = 0 ∧
    (wrapper ttl delTtl nA
        (wrapper ttl delTtl nA (⟨[], [], []⟩ : SrcState V) kwargs args1 func now).state
        kwargs args2 func now2).result = .ok (some v) := by
  have hstate : (wrapper ttl delTtl nA (⟨[], [], []⟩ : SrcState V) kwargs args1 func now).state =
      ⟨[(srcCacheKey kwargs, some v)], [(srcCacheKey kwargs, now)],
       [(srcCacheKey kwargs, false)]⟩ := by
    simp [wrapper, hfunc, runRoute, afterSweep, remove_old_cache, dget, dset, derase]
  rw [hstate]
  have hkeep : ¬(now2 - delTtl > now) := by omega
  have hkeep' : decide (now2 - delTtl > now) = false := decide_eq_false hkeep
  have hfresh2 : ¬(now2 - ttl > now) := by omega
  simp [wrapper, afterSweep, remove_old_cache, dget, hkeep', hfresh2, List.filter]

open CacheModel SrcCache in
/-- Witness for C10: a second call with a different positional argument is
served the first call's cached response. -/
theorem positional_args_ignored_in_cache_witness :
    (wrapper 120 240 10
        (wrapper 120 240 10 (⟨[], [], []⟩ : SrcState Nat) [("gsp_id", "1")] (3 : Nat)
          (fun a _ => (.ok (some a) : Except Nat (Option Nat))) 0).state
        [("gsp_id", "1")] (4 : Nat)
        (fun a _ => (.ok (some a) : Except Nat (Option Nat))) 60).funcCalls = 0 ∧
    (wrapper 120 240 10
        (wrapper 120 240 10 (⟨[], [], []⟩ : SrcState Nat) [("gsp_id", "1")] (3 : Nat)
          (fun a _ => (.ok (some a) : Except Nat (Option Nat))) 0).state
        [("gsp_id", "1")] (4 : Nat)
        (fun a _ => (.ok (some a) : Except Nat (Option Nat))) 60).result = .ok (some 3) :=
  positional_args_ignored_in_cache 120 240 10 [("gsp_id", "1")] 3 4
    (fun a _ => (.ok (some a) : Except Nat (Option Nat))) 0 60 3 (by rfl) (by decide) (by decide)
    (by decide)

namespace ApiCache

theorem str_eq_of_data_eq {s t : String} (h : s.data = t.data) : s = t := by
  cases s
  cases t
  exact congrArg String.mk h

theorem char_eq_of_toNat_eq {a b : Char} (h : a.toNat = b.toNat) : a = b :=
  Char.eq_of_val_eq (UInt32.toNat.inj h)

theorem strLt_asymm : ∀ a b : List Char, strLt a b = true → strLt b a = false
  | [], [], h => by simp [strLt] at h
  | [], _ :: _, _ => rfl
  | _ :: _, [], h => by simp [strLt] at h
  | x :: xs, y :: ys, h => by
    by_cases hxy : x.toNat < y.toNat
    · have hyx : ¬y.toNat < x.toNat := by omega
      simp [strLt, hyx, hxy]
    · by_cases hyx : y.toNat < x.toNat
      · simp [strLt, hxy, hyx] at h
      · simp only [strLt, if_neg hxy, if_neg hyx] at h
        simp only [strLt, if_neg hyx, if_neg hxy]
        exact strLt_asymm xs ys h

theorem strLt_connex : ∀ a b : List Char, strLt a b = false → strLt b a = false → a = b
  | [], [], _, _ => rfl
  | [], _ :: _, h1, _ => by simp [strLt] at h1
  | _ :: _, [], _, h2 => by simp [strLt] at h2
  | x :: xs, y :: ys, h1, h2 => by
    by_cases hxy : x.toNat < y.toNat
    · simp [strLt, hxy] at h1
    · by_cases hyx : y.toNat < x.toNat
      · simp [strLt, hyx] at h2
      · have hx : x = y := char_eq_of_toNat_eq (by omega)
        simp only [strLt, if_neg hxy, if_neg hyx] at h1
        have hrest := strLt_connex xs ys h1
          (by simpa only [strLt, if_neg hyx, if_neg hxy] using h2)
        rw [hx, hrest]

theorem strLt_trans : ∀ a b c : List Char, strLt a b = true → strLt b c = true →
    strLt a c = true
  | [], [], _, h1, _ => by simp [strLt] at h1
  | [], _ :: _, [], _, h2 => by simp [strLt] at h2
  | [], _ :: _, _ :: _, _, _ => rfl
  | _ :: _, [], _, h1, _ => by simp [strLt] at h1
  | _ :: _, _ :: _, [], _, h2 => by simp [strLt] at h2
  | x :: xs, y :: ys, z :: zs, h1, h2 => by
    by_cases hxy : x.toNat < y.toNat
    · by_cases hyz : y.toNat < z.toNat
      · have hxz : x.toNat < z.toNat := by omega
        simp [strLt, hxz]
      · by_cases hzy : z.toNat < y.toNat
        · simp [strLt, hyz, hzy] at h2
        · have hxz : x.toNat < z.toNat := by omega
          simp [strLt, hxz]
    · by_cases hyx : y.toNat < x.toNat
      · simp [strLt, hxy, hyx] at h1
      · by_cases hyz : y.toNat < z.toNat
        · have hxz : x.toNat < z.toNat := by omega
          simp [strLt, hxz]
        · by_cases hzy : z.toNat < y.toNat
          · simp [strLt, hyz, hzy] at h2
          · have hxz : ¬x.toNat < z.toNat := by omega
            have hzx : ¬z.toNat < x.toNat := by omega
            simp only [strLt, if_neg hxy, if_neg hyx] at h1
            simp only [strLt, if_neg hyz, if_neg hzy] at h2
            simp only [strLt, if_neg hxz, if_neg hzx]
            exact strLt_trans xs ys zs h1 h2

theorem pairLe_total : ∀ p q : String × String, pairLe p q ∨ pairLe q p := by
  intro p q
  unfold pairLe pairLeB
  cases h1 : strLt p.1.data q.1.data with
  | true => left; simp [h1]
  | false =>
    cases h2 : strLt q.1.data p.1.data with
    | true => right; simp [h2]
    | false =>
      cases h3 : strLt q.2.data p.2.data with
      | false => left; simp [h1, h2, h3]
      | true =>
        right
        have h3f : strLt p.2.data q.2.data = false := strLt_asymm _ _ h3
        simp [h1, h2, h3f]

theorem pairLe_trans : ∀ p q r : String × String, pairLe p q → pairLe q r → pairLe p r := by
  intro p q r hpq hqr
  unfold pairLe pairLeB at *
  cases h1 : strLt p.1.data q.1.data with
  | true =>
    cases h2 : strLt q.1.data r.1.data with
    | true => simp [strLt_trans _ _ _ h1 h2]
    | false =>
      cases h3 : strLt r.1.data q.1.data with
      | true => simp [h2, h3] at hqr
      | false =>
        have heq : q.1.data = r.1.data := strLt_connex _ _ h2 h3
        rw [← heq, h1]
        simp
  | false =>
    cases h2 : strLt q.1.data p.1.data with
    | true => simp [h1, h2] at hpq
    | false =>
      have heq : p.1.data = q.1.data := strLt_connex _ _ h1 h2
      cases h3 : strLt q.1.data r.1.data with
      | true =>
        rw [heq, h3]
        simp
      | false =>
        cases h4 : strLt r.1.data q.1.data with
        | true => simp [h3, h4] at hqr
        | false =>
          have heq2 : q.1.data = r.1.data := strLt_connex _ _ h3 h4
          have hqp2 : strLt q.2.data p.2.data = false := by simpa [h1, h2] using hpq
          have hrq2 : strLt r.2.data q.2.data = false := by simpa [h3, h4] using hqr
          have h5 : strLt r.1.data p.1.data = false := by rw [← heq] at h4; exact h4
          have h6 : strLt p.1.data r.1.data = false := by rw [← heq2]; exact h1
          have hrp2 : strLt r.2.data p.2.data = false := by
            cases h7 : strLt r.2.data p.2.data with
            | false => rfl
            | true =>
              cases h8 : strLt p.2.data q.2.data with
              | true =>
                have h9 := strLt_trans _ _ _ h7 h8
                rw [h9] at hrq2
                simp at hrq2
              | false =>
                have heq3 : p.2.data = q.2.data := strLt_connex _ _ h8 hqp2
                rw [heq3] at h7
                rw [h7] at hrq2
                simp at hrq2
          simp [h5, h6, hrp2]

theorem pairLe_antisymm : ∀ p q : String × String, pairLe p q → pairLe q p → p = q := by
  intro p q hpq hqp
  unfold pairLe pairLeB at hpq hqp
  cases h1 : strLt p.1.data q.1.data with
  | true =>
    have h1f : strLt q.1.data p.1.data = false := strLt_asymm _ _ h1
    simp [h1, h1f] at hqp
  | false =>
    cases h2 : strLt q.1.data p.1.data with
    | true => simp [h1, h2] at hpq
    | false =>
      have heq1 : p.1.data = q.1.data := strLt_connex _ _ h1 h2
      have hqp2 : strLt q.2.data p.2.data = false := by simpa [h1, h2] using hpq
      have hpq2 : strLt p.2.data q.2.data = false := by simpa [h1, h2] using hqp
      have heq2 : q.2.data = p.2.data := strLt_connex _ _ hqp2 hpq2
      exact Prod.ext (str_eq_of_data_eq heq1) (str_eq_of_data_eq heq2.symm)

theorem sortParams_eq_of_perm {l l' : List (String × String)} (h : l.Perm l') :
    sortParams l = sortParams l' := by
  haveI : IsTotal (String × String) pairLe := ⟨pairLe_total⟩
  haveI : IsTrans (String × String) pairLe := ⟨pairLe_trans⟩
  haveI : IsAntisymm (String × String) pairLe := ⟨pairLe_antisymm⟩
  exact List.eq_of_perm_of_sorted
    ((List.perm_insertionSort pairLe l).trans (h.trans (List.perm_insertionSort pairLe l').symm))
    (List.sorted_insertionSort pairLe l) (List.sorted_insertionSort pairLe l')

theorem bGet_eq_none_of_not_mem_keys (b : Backend) (k : String) (now : Int)
    (h : k ∉ b.map (fun q => q.1)) : bGet b k now = none := by
  induction b with
  | nil => rfl
  | cons p rest ih =>
    simp only [List.map_cons, List.mem_cons, not_or] at h
    simp only [bGet, if_neg (fun hh : p.1 = k => h.1 hh.symm), ih h.2]

theorem not_mem_keys_filter (b : Backend) (p : String × String × Int → Bool) (k : String)
    (h : k ∉ b.map (fun q => q.1)) : k ∉ (b.filter p).map (fun q => q.1) := by
  intro hmem
  apply h
  obtain ⟨q, hq, rfl⟩ := List.mem_map.mp hmem
  exact List.mem_map.mpr ⟨q, (List.mem_filter.mp hq).1, rfl⟩

theorem append_length_ne {s : String} (t u : String) (h : t.length ≠ u.length) :
    s ++ t ≠ s ++ u := by
  intro he
  apply h
  have := congrArg String.length he
  simp only [String.length_append] at this
  omega

end ApiCache

open SrcCache in
/-- Counterexample to claim C8: the claim asserts every key builder in the
cited code is order-insensitive in the parameters; the src/src/cache.py
wrapper serializes the kwargs dict with `json.dumps` in insertion order, so
the same two parameters supplied in the two orders produce different key
strings. -/
theorem src_key_order_sensitive :
    srcCacheKey [("a", "1"), ("b", "2")] ≠ srcCacheKey [("b", "2"), ("a", "1")] := by
  decide

open ApiCache in
/-- Amended claim C8: the nowcasting_api key builder is order-insensitive
(the query parameters are sorted before being rendered into the key), but the
src/src wrapper's `json.dumps` key is sensitive to the order in which the
keyword arguments were supplied. -/
theorem api_key_order_insensitive (path : String) (l l' : List (String × String))
    (h : l.Perm l') : apiBaseKey path l = apiBaseKey path l' := by
  unfold apiBaseKey
  rw [sortParams_eq_of_perm h]

open ApiCache in
/-- Witness for the amended C8: swapping two query parameters leaves the
generated key unchanged. -/
theorem api_key_order_insensitive_witness :
    apiBaseKey "/v0/solar/GB/national/forecast" [("a", "1"), ("b", "2")] =
      apiBaseKey "/v0/solar/GB/national/forecast" [("b", "2"), ("a", "1")] :=
  api_key_order_insensitive "/v0/solar/GB/national/forecast" _ _
    (List.Perm.swap ("b", "2") ("a", "1") [])

open ApiCache in
/-- Claim C5: after `clear_cache_key(K, cooldown)` with `cooldown > 0`, every
cached call for K issued strictly before the cooldown has elapsed has its key
generated as the fresh `K:nocache:<time>` sentinel (fresh because pre-existing
keys differ from it), which is distinct from K, so the call misses, invokes
the producer and returns the producer's value — never a value written before
the invalidation and never a cache hit for K. -/
theorem invalidate_cooldown_sentinel (b0 : ApiCache.Backend) (path : String)
    (qp : List (String × String)) (cooldown t0 t ttl : Int) (producer : String)
    (hc : 0 < cooldown) (h1 : t0 ≤ t) (h2 : t < t0 + cooldown)
    (hfresh : (apiBaseKey path qp ++ ":nocache:" ++ toString t) ∉ b0.map (fun q => q.1)) :
    generate_cache_key path qp (clear_cache_key b0 (apiBaseKey path qp) cooldown t0) t =
      apiBaseKey path qp ++ ":nocache:" ++ toString t ∧
    apiBaseKey path qp ++ ":nocache:" ++ toString t ≠ apiBaseKey path qp ∧
    (cachedCall (clear_cache_key b0 (apiBaseKey path qp) cooldown t0)
      path qp producer ttl t).2.1 = true ∧
    (cachedCall (clear_cache_key b0 (apiBaseKey path qp) cooldown t0)
      path qp producer ttl t).1 = producer := by
  have hkeylen : ∀ s : String, (s ++ ":nocache:" ++ toString t).length =
      s.length + 9 + (toString t).length := by
    intro s
    simp [String.length_append]
    decide
  have hgen : generate_cache_key path qp (clear_cache_key b0 (apiBaseKey path qp) cooldown t0) t
      = apiBaseKey path qp ++ ":nocache:" ++ toString t := by
    simp [generate_cache_key, clear_cache_key, bSet, bClear, bGet, hc, h2]
  have hne : apiBaseKey path qp ++ ":nocache:" ++ toString t ≠ apiBaseKey path qp := by
    intro he
    have := congrArg String.length he
    rw [hkeylen] at this
    omega
  have hnelock : (apiBaseKey path qp ++ ":lock") ≠
      (apiBaseKey path qp ++ ":nocache:" ++ toString t) := by
    intro he
    have := congrArg String.length he
    rw [hkeylen, String.length_append] at this
    have h5 : (":lock" : String).length = 5 := by decide
    omega
  have hmiss : bGet (clear_cache_key b0 (apiBaseKey path qp) cooldown t0)
      (apiBaseKey path qp ++ ":nocache:" ++ toString t) t = none := by
    simp only [clear_cache_key, if_pos hc, bSet, bClear]
    simp only [bGet, if_neg hnelock]
    apply bGet_eq_none_of_not_mem_keys
    exact not_mem_keys_filter _ _ _ (not_mem_keys_filter _ _ _ hfresh)
  refine ⟨hgen, hne, ?_, ?_⟩ <;>
    simp [cachedCall, hgen, hmiss]

open ApiCache in
/-- Witness for C5: a concrete invalidation with a 5-second cooldown routes a
call 2 seconds later through the sentinel key and reruns the producer, with a
stale pre-invalidation entry present in the backend. -/
theorem invalidate_cooldown_sentinel_witness :
    generate_cache_key "/v0/x" []
        (clear_cache_key [(apiBaseKey "/v0/x" [], "old", 999)] (apiBaseKey "/v0/x" []) 5 10) 12 =
      apiBaseKey "/v0/x" [] ++ ":nocache:" ++ toString (12 : Int) ∧
    apiBaseKey "/v0/x" [] ++ ":nocache:" ++ toString (12 : Int) ≠ apiBaseKey "/v0/x" [] ∧
    (cachedCall (clear_cache_key [(apiBaseKey "/v0/x" [], "old", 999)] (apiBaseKey "/v0/x" []) 5 10)
      "/v0/x" [] "fresh" 120 12).2.1 = true ∧
    (cachedCall (clear_cache_key [(apiBaseKey "/v0/x" [], "old", 999)] (apiBaseKey "/v0/x" []) 5 10)
      "/v0/x" [] "fresh" 120 12).1 = "fresh" :=
  invalidate_cooldown_sentinel [(apiBaseKey "/v0/x" [], "old", 999)] "/v0/x" [] 5 10 12 120
    "fresh" (by decide) (by decide) (by decide) (by decide)

open ApiCache in
/-- Counterexample to claim C6: the claim says any backend error on a get or
set during a call through the cache wrapper is caught and treated as a miss,
with the producer still invoked; but `generate_cache_key`'s lock lookup
`backend.get(f"{key}:lock")` has no `try`/`except`, so a raising backend makes
the whole wrapped call raise and the producer is never invoked. -/
theorem lock_get_error_propagates_concrete :
    cachedCallF "/v0/national/" [] (.error (.failure "backend down")) [] "fresh" 120 0 =
      .error (.failure "backend down") := by
  rfl

open ApiCache in
/-- Amended claim C6: backend errors raised inside `clear_cache_key` are
caught and logged (the previous state survives and the call returns
normally), but a backend error on the lock read inside `generate_cache_key`
propagates to the caller of the wrapped call. -/
theorem backend_error_policy_split :
    (∀ (e : BackendError) (b0 : ApiCache.Backend), clear_cache_key_try (.error e) b0 = b0) ∧
    (∀ (path : String) (qp : List (String × String)) (e : BackendError) (now : Int),
      generate_cache_key_f path qp (.error e) now = .error e) :=
  ⟨fun _ _ => rfl, fun _ _ _ _ => rfl⟩

/-- Claim C1 (a code bug): running two callers of src/src/cache.py's wrapper
for the same key against an empty cache, with the interleaving in which both
threads evaluate the line-114 check and the line-132 guard before either
executes `currently_running[key] = True` on line 138, makes both callers win
the (non-atomic) test-and-set: the producer runs twice and both callers run
to completion, refuting "the producer for K is invoked exactly once during
that contention window". -/
theorem flight_double_execution :
    (Flight.run Flight.raceSchedule ⟨none, none, false, 0⟩ .l114 .l114 0 42).1.calls = 2 ∧
    (Flight.run Flight.raceSchedule ⟨none, none, false, 0⟩ .l114 .l114 0 42).2 =
      (Flight.PC.done, Flight.PC.done) :=
  ⟨rfl, rfl⟩

